import Mathlib

/-!
# Verification of the hack-or-snooze client-side data/session layer

Shallow embedding of `src/js/models.js`: the `Story`, `StoryList` and `User`
entities and the operations that keep local state synchronized with the
remote API.  Asynchronous network interactions are embedded by passing the
remote outcome (the parsed server response, or a failure) as an explicit
argument to the operation; the operation's effect on the receiver is then a
pure function of its inputs, exactly mirroring the JavaScript control flow
(local mutations that happen before the `await` are applied unconditionally,
and a rejected promise leaves them in place because the receiver is mutated
in place in the source).
-/

namespace HackOrSnooze

/-- A plain story record as delivered by the API:
`{storyId, title, author, url, username, createdAt}`. -/
structure StoryRecord where
  storyId : String
  title : String
  author : String
  url : String
  username : String
  createdAt : String
deriving Repr, DecidableEq

/-- `class Story`: a single story in the system.  The constructor copies the
six fields of the data object verbatim. -/
structure Story where
  storyId : String
  title : String
  author : String
  url : String
  username : String
  createdAt : String
deriving Repr, DecidableEq

/-- `new Story({storyId, title, author, url, username, createdAt})`:
each field is copied from the record. -/
def Story.ofRecord (r : StoryRecord) : Story :=
  { storyId := r.storyId
    title := r.title
    author := r.author
    url := r.url
    username := r.username
    createdAt := r.createdAt }

/-- Model of the WHATWG URL platform API used by `getHostName` via
`new URL(this.url).host`.  This API is external to the repository (a browser
built-in), so it is modelled here: a URL is accepted when it starts with a
scheme (a letter followed by letters, digits, `+`, `-` or `.`) and `"://"`;
the authority then runs to the first `/`, `?` or `#`; the host is the part
of the authority after the last `@` (userinfo stripped, port retained, as
`.host` keeps the port).  An input with no scheme, no `//`, or an empty host
makes the constructor throw, modelled as `none`. -/
def parseURLHost (url : String) : Option String :=
  match url.toList with
  | [] => none
  | c :: _ =>
    if c.isAlpha then
      let schemeChar : Char → Bool := fun ch =>
        ch.isAlphanum || ch == '+' || ch == '-' || ch == '.'
      match url.toList.dropWhile schemeChar with
      | ':' :: '/' :: '/' :: rest =>
        let authority := rest.takeWhile
          (fun ch => !(ch == '/' || ch == '?' || ch == '#'))
        let host := (authority.reverse.takeWhile (fun ch => ch != '@')).reverse
        if host.isEmpty then none else some (String.mk host)
      | _ => none
    else none

/-- The error thrown by `new URL` on an unparseable URL (the spec's
`MalformedUrlError`). -/
inductive MalformedUrlError where
  | malformedUrl
deriving Repr, DecidableEq

/-- `getHostName()`: `return new URL(this.url).host;` — parses the story's
`url` and returns its host component; a parse failure propagates unguarded
(no catch, no default value). -/
def Story.getHostName (s : Story) : Except MalformedUrlError String :=
  match parseURLHost s.url with
  | some h => Except.ok h
  | none => Except.error MalformedUrlError.malformedUrl

/-- `class StoryList`: ordered collection of `Story` (display order). -/
structure StoryList where
  stories : List Story
deriving Repr, DecidableEq

/-- The `{title, author, url}` payload handed to `addStory`. -/
structure NewStoryPayload where
  title : String
  author : String
  url : String
deriving Repr, DecidableEq

/-- The body of the POST `/stories` request built by `addStory`:
`{token, story: {author, title, url}}`. -/
structure AddStoryRequest where
  token : String
  author : String
  title : String
  url : String
deriving Repr, DecidableEq

/-- Outcome of a network call whose response body is unused: it either
resolves or rejects. -/
inductive NetResult where
  | ok
  | netError
deriving Repr, DecidableEq

end HackOrSnooze

namespace HackOrSnooze

/-- `class User`: the current user's profile, favorites, own stories and
session token. -/
structure User where
  username : String
  name : String
  createdAt : String
  favorites : List Story
  ownStories : List Story
  loginToken : String
deriving Repr, DecidableEq

/-- The object destructured by the `User` constructor.  `favorites` and
`ownStories` carry JavaScript default parameters (`= []` when the property
is absent), embedded as `Option` with `none` for an absent property. -/
structure UserDataInput where
  username : String
  name : String
  createdAt : String
  favorites : Option (List StoryRecord)
  ownStories : Option (List StoryRecord)
deriving Repr, DecidableEq

/-- The `User` constructor: copies `username`, `name`, `createdAt`, maps
`favorites` and `ownStories` element-wise through `new Story(s)` (defaulting
an absent array to `[]`), and stores the token as `loginToken`. -/
def User.construct (data : UserDataInput) (token : String) : User :=
  { username := data.username
    name := data.name
    createdAt := data.createdAt
    favorites := (data.favorites.getD []).map Story.ofRecord
    ownStories := (data.ownStories.getD []).map Story.ofRecord
    loginToken := token }

/-- `addStory(currentUser, newStory)`: builds the authenticated create
request from the user's token and the payload, and — on a successful remote
creation whose parsed response contains `data.story = responseStory` —
constructs a `Story` from it, `unshift`s it onto `this.stories`, and returns
it.  Result: the returned `Story` together with the updated receiver. -/
def StoryList.addStory (sl : StoryList) (currentUser : User)
    (newStory : NewStoryPayload) (responseStory : StoryRecord) :
    Story × StoryList :=
  let story := Story.ofRecord responseStory
  (story, ⟨story :: sl.stories⟩)

/-- The request body `addStory` sends:
`JSON.stringify({token: userToken, story: {author, title, url}})`. -/
def StoryList.addStoryRequest (currentUser : User)
    (newStory : NewStoryPayload) : AddStoryRequest :=
  { token := currentUser.loginToken
    author := newStory.author
    title := newStory.title
    url := newStory.url }

end HackOrSnooze

namespace HackOrSnooze

/-- The `user` object of a successful auth-related server response
(`UserRecord` in the spec): the user's own stories arrive under the key
`stories`. -/
structure ServerUserRecord where
  username : String
  name : String
  createdAt : String
  favorites : List StoryRecord
  stories : List StoryRecord
deriving Repr, DecidableEq

/-- A successful `/signup` or `/login` response: `{user: UserRecord, token}`. -/
structure AuthResponse where
  user : ServerUserRecord
  token : String
deriving Repr, DecidableEq

/-- `User.signup(username, password, name)`: POSTs
`{user: {username, password, name}}`; on the successful response `response`
builds a `User` from the returned profile — `ownStories` is fed from the
response key `stories` — plus the issued token. -/
def User.signup (username password name : String)
    (response : AuthResponse) : User :=
  User.construct
    { username := response.user.username
      name := response.user.name
      createdAt := response.user.createdAt
      favorites := some response.user.favorites
      ownStories := some response.user.stories }
    response.token

/-- `User.login(username, password)`: POSTs `{user: {username, password}}`;
on the successful response `response` builds a `User` exactly as `signup`
does. -/
def User.login (username password : String) (response : AuthResponse) : User :=
  User.construct
    { username := response.user.username
      name := response.user.name
      createdAt := response.user.createdAt
      favorites := some response.user.favorites
      ownStories := some response.user.stories }
    response.token

/-- Any failure arising inside the `try` block of
`loginViaStoredCredentials`: a rejected token, a transport failure, or a
response whose body has no usable `user` object. -/
inductive SessionError where
  | badToken
  | networkError
  | malformedResponse
deriving Repr, DecidableEq

/-- `User.loginViaStoredCredentials(token, username)`: GETs
`/users/{username}?token={token}`; on success builds a `User` from the
returned profile carrying the *same* `token` that was passed in.  The whole
body sits in a `try`/`catch` that logs any error and returns `null`,
embedded as `none`; the remote interaction (fetch + JSON parse + `user`
extraction) is passed in as `remote`. -/
def User.loginViaStoredCredentials (token username : String)
    (remote : Except SessionError ServerUserRecord) : Option User :=
  match remote with
  | Except.error _ => none
  | Except.ok user =>
    some (User.construct
      { username := user.username
        name := user.name
        createdAt := user.createdAt
        favorites := some user.favorites
        ownStories := some user.stories }
      token)

/-- `addFavorite(story)`: `this.favorites.push(story)` (the local mutation,
which happens strictly before the `await`), then POSTs
`/users/{username}/favorites/{storyId}` with the token.  The remote call's
outcome `remote` never alters local state (no rollback): on rejection the
error propagates but the receiver keeps the pushed entry.  Result: the
receiver's state after the call, paired with the propagated outcome. -/
def User.addFavorite (u : User) (story : Story) (remote : NetResult) :
    User × NetResult :=
  ({ u with favorites := u.favorites ++ [story] }, remote)

/-- `removeFavorite(story)`:
`this.favorites = this.favorites.filter(s => s.storyId !== story.storyId)`
(the local mutation, before the `await`), then issues the authenticated
DELETE.  Same no-rollback shape as `addFavorite`. -/
def User.removeFavorite (u : User) (story : Story) (remote : NetResult) :
    User × NetResult :=
  let kept := u.favorites.filter (fun s => s.storyId != story.storyId)
  ({ u with favorites := kept }, remote)

/-- The `for (let s of this.favorites)` loop of `isFavorite`: returns `true`
at the first entry whose `storyId` equals the probe id, else `false`. -/
def favLoop (sid : String) : List Story → Bool
  | [] => false
  | s :: rest => if s.storyId == sid then true else favLoop sid rest

/-- `isFavorite(story)`: membership scan of `this.favorites` keyed by
`storyId`. -/
def User.isFavorite (u : User) (story : Story) : Bool :=
  favLoop story.storyId u.favorites

end HackOrSnooze

/-! ## Helper lemmas -/

namespace HackOrSnooze

/-- The `isFavorite` scan agrees with `List.any` keyed by `storyId`. -/
theorem favLoop_eq_any (sid : String) (l : List Story) :
    favLoop sid l = l.any (fun s => s.storyId == sid) := by
  induction l with
  | nil => rfl
  | cons x xs ih =>
    rw [favLoop, List.any_cons, ih]
    cases h : x.storyId == sid <;> simp [h]

/-- A story reported not-favorite has its id absent from the favorites ids. -/
theorem isFavorite_false_not_mem {u : User} {s : Story}
    (h : u.isFavorite s = false) :
    s.storyId ∉ u.favorites.map Story.storyId := by
  rw [User.isFavorite, favLoop_eq_any] at h
  simp only [List.any_eq_false, beq_iff_eq] at h
  simp only [List.mem_map, not_exists, not_and]
  exact h

/-- Pushing a story that is not currently a favorite preserves
`storyId`-uniqueness of the favorites sequence. -/
theorem addFavorite_nodup {u : User} {s : Story} (r : NetResult)
    (hn : (u.favorites.map Story.storyId).Nodup)
    (hf : u.isFavorite s = false) :
    ((u.addFavorite s r).1.favorites.map Story.storyId).Nodup := by
  have hnm := isFavorite_false_not_mem hf
  simp only [User.addFavorite, List.map_append, List.map_cons, List.map_nil]
  rw [List.nodup_append]
  exact ⟨hn, List.nodup_singleton _, by simpa [List.disjoint_singleton] using hnm⟩

/-- Filtering the favorites sequence preserves `storyId`-uniqueness. -/
theorem removeFavorite_nodup {u : User} (s : Story) (r : NetResult)
    (hn : (u.favorites.map Story.storyId).Nodup) :
    ((u.removeFavorite s r).1.favorites.map Story.storyId).Nodup := by
  have hsub :
      ((u.removeFavorite s r).1.favorites.map Story.storyId).Sublist
        (u.favorites.map Story.storyId) := by
    simp only [User.removeFavorite]
    exact (List.filter_sublist _).map _
  exact hn.sublist hsub

end HackOrSnooze

/-! ## Claim theorems -/

namespace HackOrSnooze

/-- C1: for every `StoryList`, user and `{title, author, url}` payload, on a
successful remote creation `addStory` constructs a `Story` from the server
response, inserts it at index 0 of the receiver's stories (prior elements
follow in their prior order, length grows by exactly 1), and returns that
new `Story`. -/
theorem addStory_prepends (sl : StoryList) (currentUser : User)
    (newStory : NewStoryPayload) (responseStory : StoryRecord) :
    (sl.addStory currentUser newStory responseStory).1 =
      Story.ofRecord responseStory ∧
    (sl.addStory currentUser newStory responseStory).2.stories =
      (sl.addStory currentUser newStory responseStory).1 :: sl.stories ∧
    (sl.addStory currentUser newStory responseStory).2.stories.length =
      sl.stories.length + 1 := by
  refine ⟨rfl, rfl, ?_⟩
  simp [StoryList.addStory]

/-- C3: `isFavorite s` is `true` immediately after `addFavorite s` and
`false` immediately after `removeFavorite s`, regardless of the remote
call's outcome (the local mutation precedes the network await and is never
rolled back). -/
theorem isFavorite_after_mutation (u : User) (s : Story) (r : NetResult) :
    (u.addFavorite s r).1.isFavorite s = true ∧
    (u.removeFavorite s r).1.isFavorite s = false := by
  constructor
  · simp [User.addFavorite, User.isFavorite, favLoop_eq_any, List.any_append]
  · simp only [User.removeFavorite, User.isFavorite, favLoop_eq_any]
    simp [List.any_eq_false, List.mem_filter]

/-- C4: `removeFavorite` is idempotent on local state: a second call with
the same story leaves the user (in particular the favorites sequence)
exactly as it was after the first call, whatever the remote outcomes. -/
theorem removeFavorite_idempotent (u : User) (s : Story) (r r' : NetResult) :
    ((u.removeFavorite s r).1.removeFavorite s r').1 =
      (u.removeFavorite s r).1 := by
  simp [User.removeFavorite, List.filter_filter]

/-- C9: `addFavorite` and `removeFavorite` mutate only the `favorites`
field of the receiver: `username`, `name`, `createdAt`, `ownStories` and
`loginToken` are unchanged by either call (stories are immutable values in
this embedding, so the argument story is untouched by construction). -/
theorem favorite_ops_frame (u : User) (s : Story) (r : NetResult) :
    (u.addFavorite s r).1.username = u.username ∧
    (u.addFavorite s r).1.name = u.name ∧
    (u.addFavorite s r).1.createdAt = u.createdAt ∧
    (u.addFavorite s r).1.ownStories = u.ownStories ∧
    (u.addFavorite s r).1.loginToken = u.loginToken ∧
    (u.removeFavorite s r).1.username = u.username ∧
    (u.removeFavorite s r).1.name = u.name ∧
    (u.removeFavorite s r).1.createdAt = u.createdAt ∧
    (u.removeFavorite s r).1.ownStories = u.ownStories ∧
    (u.removeFavorite s r).1.loginToken = u.loginToken :=
  ⟨rfl, rfl, rfl, rfl, rfl, rfl, rfl, rfl, rfl, rfl⟩

/-- C10: the `User` constructor defaults an absent `favorites` or
`ownStories` array to the empty sequence, and maps present arrays
element-wise, in order, through the `Story` constructor. -/
theorem construct_defaults (un nm ca tok : String)
    (fs os : List StoryRecord) :
    (User.construct ⟨un, nm, ca, none, none⟩ tok).favorites = [] ∧
    (User.construct ⟨un, nm, ca, none, none⟩ tok).ownStories = [] ∧
    (User.construct ⟨un, nm, ca, some fs, some os⟩ tok).favorites =
      fs.map Story.ofRecord ∧
    (User.construct ⟨un, nm, ca, some fs, some os⟩ tok).ownStories =
      os.map Story.ofRecord :=
  ⟨rfl, rfl, rfl, rfl⟩

/-- C6: for a story built from a record whose `url` parses to host `h`,
`getHostName` returns exactly that `h` — Story construction does not change
the derived hostname. -/
theorem getHostName_roundtrip (r : StoryRecord) (h : String)
    (hp : parseURLHost r.url = some h) :
    (Story.ofRecord r).getHostName = Except.ok h := by
  simp [Story.getHostName, Story.ofRecord, hp]

/-- C6 witness: the spec scenario `https://news.example.com/a/b` yields
host `news.example.com`. -/
theorem getHostName_roundtrip_witness :
    parseURLHost "https://news.example.com/a/b" = some "news.example.com" ∧
    (Story.ofRecord
      ⟨"3", "T", "A", "https://news.example.com/a/b", "u", "now"⟩).getHostName
      = Except.ok "news.example.com" :=
  ⟨by decide,
   getHostName_roundtrip
     ⟨"3", "T", "A", "https://news.example.com/a/b", "u", "now"⟩
     "news.example.com" (by decide)⟩

/-- C7: for a story whose `url` does not parse, `getHostName` fails with
the malformed-URL error, propagated unguarded: no catch, no default. -/
theorem getHostName_propagates (s : Story)
    (hp : parseURLHost s.url = none) :
    s.getHostName = Except.error MalformedUrlError.malformedUrl := by
  simp [Story.getHostName, hp]

/-- C7 witness: a scheme-less string is rejected and the error surfaces. -/
theorem getHostName_propagates_witness :
    parseURLHost "notaurl" = none ∧
    (Story.mk "9" "T" "A" "notaurl" "u" "now").getHostName =
      Except.error MalformedUrlError.malformedUrl :=
  ⟨by decide,
   getHostName_propagates (Story.mk "9" "T" "A" "notaurl" "u" "now")
     (by decide)⟩

end HackOrSnooze

namespace HackOrSnooze

/-- C5: session restoration is fail-soft: whenever the remote interaction
fails in any way the result is the explicit no-session value `none`
(the error is trapped, never propagated — the function is total into
`Option`), and on success the returned `User` carries the very token that
was passed in. -/
theorem loginViaStoredCredentials_failsoft (token username : String)
    (remote : Except SessionError ServerUserRecord) :
    (∀ e, remote = Except.error e →
      User.loginViaStoredCredentials token username remote = none) ∧
    (∀ rec, remote = Except.ok rec → ∃ u,
      User.loginViaStoredCredentials token username remote = some u ∧
      u.loginToken = token) := by
  constructor
  · rintro e rfl
    rfl
  · rintro rec rfl
    exact ⟨_, rfl, rfl⟩

/-- C5 witness: a rejected token yields `none`; a successful profile fetch
yields a user holding the stored token. -/
theorem loginViaStoredCredentials_failsoft_witness :
    User.loginViaStoredCredentials "tok" "alice"
      (Except.error SessionError.badToken) = none ∧
    (∃ u, User.loginViaStoredCredentials "tok" "alice"
        (Except.ok ⟨"alice", "Alice", "now", [], []⟩) = some u ∧
      u.loginToken = "tok") :=
  ⟨(loginViaStoredCredentials_failsoft "tok" "alice"
      (Except.error SessionError.badToken)).1 SessionError.badToken rfl,
   (loginViaStoredCredentials_failsoft "tok" "alice"
      (Except.ok ⟨"alice", "Alice", "now", [], []⟩)).2
      ⟨"alice", "Alice", "now", [], []⟩ rfl⟩

/-- C8: all three User-constructing operations translate the server
response's `stories` key into the `ownStories` field and map both arrays
element-wise into `Story` instances. -/
theorem user_factories_field_translation (un pw nm tok usr : String)
    (response : AuthResponse) (rec : ServerUserRecord) :
    (User.signup un pw nm response).ownStories =
      response.user.stories.map Story.ofRecord ∧
    (User.signup un pw nm response).favorites =
      response.user.favorites.map Story.ofRecord ∧
    (User.login un pw response).ownStories =
      response.user.stories.map Story.ofRecord ∧
    (User.login un pw response).favorites =
      response.user.favorites.map Story.ofRecord ∧
    ∃ u, User.loginViaStoredCredentials tok usr (Except.ok rec) = some u ∧
      u.ownStories = rec.stories.map Story.ofRecord ∧
      u.favorites = rec.favorites.map Story.ofRecord :=
  ⟨rfl, rfl, rfl, rfl, _, rfl, rfl, rfl⟩

/-- A concrete story used to exhibit favorites-duplication. -/
def cexStory : Story := ⟨"s1", "T", "A", "http://x.com", "alice", "now"⟩

/-- A concrete user fresh from signup with no favorites. -/
def cexUser : User :=
  User.signup "alice" "pw" "Alice" ⟨⟨"alice", "Alice", "now", [], []⟩, "tok"⟩

/-- C2 counterexample: a user reachable by signup followed by two
`addFavorite` calls on the same story holds that story's id twice in
`favorites` — the sequence is not set-like, because `addFavorite` pushes
unconditionally. -/
theorem favorites_unique_counterexample :
    ¬ ((((cexUser.addFavorite cexStory NetResult.ok).1.addFavorite cexStory
        NetResult.ok).1.favorites.map Story.storyId).Nodup) := by
  decide

/-- Favorite/unfavorite histories in which `addFavorite` is invoked only on
a story that is not currently a favorite — the discipline the view layer
follows (the star handler calls `addFavorite` only when the star is
unfilled, i.e. when `isFavorite` is false). -/
inductive GuardedFavReach : User → User → Prop where
  | refl (u : User) : GuardedFavReach u u
  | fav {u₀ u : User} (s : Story) (r : NetResult) :
      GuardedFavReach u₀ u → u.isFavorite s = false →
      GuardedFavReach u₀ (u.addFavorite s r).1
  | unfav {u₀ u : User} (s : Story) (r : NetResult) :
      GuardedFavReach u₀ u → GuardedFavReach u₀ (u.removeFavorite s r).1

/-- C2 amended: favorites `storyId`-uniqueness is an invariant of
`addFavorite`/`removeFavorite` sequences only under the guard the view
layer applies — starting from a user whose favorites ids are duplicate-free,
`removeFavorite` always preserves uniqueness and `addFavorite` preserves it
when the story is not currently a favorite; an unguarded `addFavorite` of an
already-favorite story violates it. -/
theorem favorites_nodup_guarded (u₀ u : User)
    (h₀ : (u₀.favorites.map Story.storyId).Nodup)
    (hreach : GuardedFavReach u₀ u) :
    (u.favorites.map Story.storyId).Nodup := by
  induction hreach with
  | refl => exact h₀
  | fav s r _ hguard ih => exact addFavorite_nodup r ih hguard
  | unfav s r _ ih => exact removeFavorite_nodup s r ih

/-- C2 amended witness: the fresh signup user has duplicate-free favorites,
and one guarded `addFavorite` keeps them duplicate-free. -/
theorem favorites_nodup_guarded_witness :
    (cexUser.favorites.map Story.storyId).Nodup ∧
    (((cexUser.addFavorite cexStory NetResult.ok).1.favorites.map
        Story.storyId).Nodup) :=
  ⟨by decide,
   favorites_nodup_guarded cexUser (cexUser.addFavorite cexStory NetResult.ok).1
     (by decide)
     (GuardedFavReach.fav cexStory NetResult.ok (GuardedFavReach.refl cexUser)
       (by decide))⟩

end HackOrSnooze
